import Mathlib

/-!
Verification of the PhysioVision presentation-layer pages.

Two source files are modelled:
* the chat "Fitness Assistant" page (`handleSend` over local component
  state: a message transcript, an input buffer, and deferred timer
  callbacks), and
* the start-therapy / dashboard page (`handleFlip` over the per-card
  flip mapping, and the profile field renderers of `Dashboard`).
-/

namespace PhysioVision

/-- Message role: `"user" | "bot"` in the source's message type. -/
inductive Role where
  | user
  | bot
deriving DecidableEq, Repr

/-- One chat message: `{ type; content; timestamp }` from the source. -/
structure ChatMessage where
  type : Role
  content : String
  timestamp : String
deriving DecidableEq, Repr

/--
Local state of the `FitnessAssistant` component: the transcript
(`messages`), the input buffer (`userInput`), and the bot messages whose
append has been scheduled via `setTimeout` but has not yet run
(`pending`, in scheduling order; all delays are the fixed 1000 ms, so
callbacks run in scheduling order).
-/
structure ChatState where
  messages : List ChatMessage
  userInput : String
  pending : List ChatMessage
deriving DecidableEq, Repr

/--
Model of JavaScript `String.prototype.trim`: strips whitespace from
both ends of the string.  Written over the character list so that it
evaluates by kernel reduction.
-/
def jsTrim (s : String) : String :=
  ⟨((s.data.dropWhile Char.isWhitespace).reverse.dropWhile
      Char.isWhitespace).reverse⟩

/-- The bot reply template from the source:
`` `Here's an exercise tailored for "${userInput}"!` `` (the source
spells the apostrophe as U+2019). -/
def botReply (s : String) : String :=
  "Here’s an exercise tailored for \"" ++ s ++ "\"!"

/--
`handleSend` from the source. `now` stands for the wall-clock string
`new Date().toLocaleTimeString(...)` captured at submission time.
If the trimmed input buffer is empty it returns early; otherwise it
appends the user message, schedules the deferred bot append (capturing
the original `userInput` and the same `timestamp`), and clears the
input buffer.
-/
def handleSend (now : String) (st : ChatState) : ChatState :=
  if jsTrim st.userInput = "" then st
  else
    { messages := st.messages ++ [⟨Role.user, st.userInput, now⟩]
      userInput := ""
      pending := st.pending ++ [⟨Role.bot, botReply st.userInput, now⟩] }

/--
Running the oldest pending `setTimeout` callback: it appends its bot
message to the transcript (`setMessages((prev) => [...prev, {...}])`)
and is no longer pending.
-/
def fireNext (st : ChatState) : ChatState :=
  match st.pending with
  | [] => st
  | m :: rest => { st with messages := st.messages ++ [m], pending := rest }

/-! ## Card flip state (`StartTherapy`) -/

/--
`handleFlip` from the source, over the `flippedCards` mapping from card
index to boolean.  A JavaScript object lookup of an absent key is
`undefined`, and `!undefined = true = !false`, so the mapping is
faithfully a total function `Nat → Bool` in which absent keys read
`false`.  `handleFlip idx` is `{ ...prev, [idx]: !prev[idx] }`.
-/
def handleFlip (idx : Nat) (prev : Nat → Bool) : Nat → Bool :=
  fun j => if j = idx then !(prev idx) else prev j

/-! ## Dashboard profile display -/

/--
The profile record consumed by `Dashboard` (shape of `User` from
`dashboard.api`; every displayed field may be absent, and the view
degrades each absent field to a placeholder).  Numeric fields are
modelled over ℚ.
-/
structure User where
  name : Option String
  email : Option String
  sex : Option String
  pain_category : Option String
  bmi : Option ℚ
  age : Option ℚ
  height : Option ℚ
deriving DecidableEq, Repr

/-- A rendered field value: either a string (including the `"N/A"`
placeholder) or a number interpolated into the view. -/
inductive Display where
  | str (s : String)
  | num (q : ℚ)
deriving DecidableEq, Repr

/-- `{userData?.name ?? "N/A"}` from the source. -/
def dispName (u : Option User) : Display :=
  match u.bind User.name with
  | some s => Display.str s
  | none => Display.str "N/A"

/-- `{userData?.email ?? "N/A"}` from the source. -/
def dispEmail (u : Option User) : Display :=
  match u.bind User.email with
  | some s => Display.str s
  | none => Display.str "N/A"

/-- Focus area: `{userData?.sex ?? "N/A"}` from the source. -/
def dispFocusArea (u : Option User) : Display :=
  match u.bind User.sex with
  | some s => Display.str s
  | none => Display.str "N/A"

/-- Mobility: `{userData?.pain_category ?? "N/A"}` from the source. -/
def dispMobility (u : Option User) : Display :=
  match u.bind User.pain_category with
  | some s => Display.str s
  | none => Display.str "N/A"

/-- `{userData?.bmi ?? "N/A"}` from the source. -/
def dispBmi (u : Option User) : Display :=
  match u.bind User.bmi with
  | some q => Display.num q
  | none => Display.str "N/A"

/--
Weight: `{userData?.age ? userData.age * 0.9 : "N/A"}` from the source.
The condition is JavaScript truthiness of `userData?.age`: it is falsy
when `userData` is null, when `age` is absent, and also when `age` is
the number `0`.
-/
def dispWeight (u : Option User) : Display :=
  match u.bind User.age with
  | some a => if a = 0 then Display.str "N/A" else Display.num (a * (9 / 10))
  | none => Display.str "N/A"

/-- `{userData?.height ?? "N/A"}` from the source. -/
def dispHeight (u : Option User) : Display :=
  match u.bind User.height with
  | some q => Display.num q
  | none => Display.str "N/A"

/-- A fully populated sample profile with `age = 80`, used as the
concrete instance of §8's testable property. -/
def sampleUser80 : User :=
  { name := some "Abdullah"
    email := some "abdullah@example.com"
    sex := some "Knee"
    pain_category := some "Moderate"
    bmi := some 24
    age := some 80
    height := some 175 }

/-- A fully-populated profile except that `age` is the number `0`. -/
def sampleUserAge0 : User :=
  { sampleUser80 with age := some 0 }

end PhysioVision

namespace PhysioVision

/-! ## Claims -/

/--
C1: for every state whose input buffer trims to non-empty (and with no
earlier deferred append pending, so the submission's own appends are
isolated), `handleSend` appends exactly one user message carrying the
submitted text, and running the deferred action then appends exactly
one bot message whose text is the template applied to the submitted
text; nothing else is appended by that submission.
-/
theorem handleSend_appends_user_then_bot (st : ChatState) (now : String)
    (hne : jsTrim st.userInput ≠ "") (hp : st.pending = []) :
    (handleSend now st).messages =
      st.messages ++ [⟨Role.user, st.userInput, now⟩] ∧
    fireNext (handleSend now st) =
      { messages := st.messages ++ [⟨Role.user, st.userInput, now⟩,
          ⟨Role.bot, botReply st.userInput, now⟩]
        userInput := ""
        pending := [] } := by
  unfold handleSend fireNext
  rw [if_neg hne, hp]
  simp

/-- Witness for C1 at the concrete submission `"knee pain"`. -/
theorem handleSend_appends_user_then_bot_witness :
    jsTrim "knee pain" ≠ "" ∧
    (handleSend "10:15" ⟨[], "knee pain", []⟩).messages =
      [⟨Role.user, "knee pain", "10:15"⟩] ∧
    fireNext (handleSend "10:15" ⟨[], "knee pain", []⟩) =
      { messages := [⟨Role.user, "knee pain", "10:15"⟩,
          ⟨Role.bot, botReply "knee pain", "10:15"⟩]
        userInput := ""
        pending := [] } := by
  refine ⟨by decide, ?_⟩
  have h := handleSend_appends_user_then_bot ⟨[], "knee pain", []⟩ "10:15"
    (by decide) rfl
  simpa using h

/--
C2: when the input buffer trims to empty, `handleSend` is a no-op: the
whole state (transcript, buffer, pending deferred actions) is returned
unchanged, and nothing is scheduled.
-/
theorem handleSend_empty_noop (st : ChatState) (now : String)
    (h : jsTrim st.userInput = "") :
    handleSend now st = st := by
  unfold handleSend
  rw [if_pos h]

/-- Witness for C2 on a whitespace-only input buffer. -/
theorem handleSend_empty_noop_witness :
    jsTrim "  " = "" ∧
    handleSend "10:15" ⟨[], "  ", []⟩ = ⟨[], "  ", []⟩ :=
  ⟨by decide, handleSend_empty_noop ⟨[], "  ", []⟩ "10:15" (by decide)⟩

/--
C3: the transcript is append-only: both operations on the chat state —
`handleSend` (the immediate user-message append) and `fireNext` (any
deferred bot-message append, however many are pending) — extend the
message list only at its end, so existing messages are never removed,
replaced or reordered, and messages appear in append order.
-/
theorem transcript_append_only (st : ChatState) (now : String) :
    (∃ tail, (handleSend now st).messages = st.messages ++ tail) ∧
    (∃ tail, (fireNext st).messages = st.messages ++ tail) := by
  constructor
  · unfold handleSend
    by_cases h : jsTrim st.userInput = ""
    · exact ⟨[], by rw [if_pos h]; simp⟩
    · exact ⟨[⟨Role.user, st.userInput, now⟩], by rw [if_neg h]⟩
  · unfold fireNext
    match st with
    | ⟨ms, ui, []⟩ => exact ⟨[], by simp⟩
    | ⟨ms, ui, m :: rest⟩ => exact ⟨[m], rfl⟩

/--
C4: toggling a card twice restores the whole flip mapping, hence in
particular the flipped state of that index (toggle is an involution).
-/
theorem handleFlip_involution (idx : Nat) (prev : Nat → Bool) :
    handleFlip idx (handleFlip idx prev) = prev := by
  funext j
  unfold handleFlip
  by_cases h : j = idx
  · subst h; simp
  · simp [h]

/--
C5: toggling card `i` leaves every other index `j ≠ i` unchanged.
-/
theorem handleFlip_frame (i j : Nat) (prev : Nat → Bool) (h : j ≠ i) :
    handleFlip i prev j = prev j := by
  unfold handleFlip
  rw [if_neg h]

/-- Witness for C5 at `i = 0`, `j = 1` on the empty (all-false) map. -/
theorem handleFlip_frame_witness :
    (1 : Nat) ≠ 0 ∧ handleFlip 0 (fun _ => false) 1 = false :=
  ⟨by decide, handleFlip_frame 0 1 (fun _ => false) (by decide)⟩

/--
C6 counterexample: the claim "for every profile in which age is present
the displayed weight equals age × 0.9" fails at a fully populated
profile whose `age` field is present with value `0`: the source's
truthiness test sends it to the `"N/A"` branch, not to the number
`0 × 0.9 = 0`.
-/
theorem weight_age_present_counterexample :
    sampleUserAge0.age = some 0 ∧
    dispWeight (some sampleUserAge0) = Display.str "N/A" ∧
    dispWeight (some sampleUserAge0) ≠ Display.num (0 * (9 / 10)) := by
  refine ⟨rfl, rfl, ?_⟩
  decide

/--
C6 (amended): for every profile in which `age` is present and nonzero,
the displayed weight equals `age * 0.9`; in particular, for the fully
populated sample profile with `age = 80` it equals `72`.
-/
theorem weight_is_age_times_ninety_percent (u : User) (a : ℚ)
    (ha : u.age = some a) (hnz : a ≠ 0) :
    dispWeight (some u) = Display.num (a * (9 / 10)) ∧
    dispWeight (some sampleUser80) = Display.num 72 := by
  constructor
  · unfold dispWeight
    simp [ha, hnz]
  · have h72 : (80 : ℚ) * (9 / 10) = 72 := by norm_num
    norm_num [dispWeight, sampleUser80, h72]

/-- Witness for the amended C6 at the `age = 80` sample profile. -/
theorem weight_is_age_times_ninety_percent_witness :
    sampleUser80.age = some 80 ∧ (80 : ℚ) ≠ 0 ∧
    dispWeight (some sampleUser80) = Display.num (80 * (9 / 10)) :=
  ⟨rfl, by decide,
    (weight_is_age_times_ninety_percent sampleUser80 80 rfl (by decide)).1⟩

/--
C7: when the profile fetch returns null (`userData = none`), all seven
profile fields of the dashboard view render the placeholder `"N/A"`
with no distinguishing error message.
-/
theorem null_profile_all_placeholders :
    dispName none = Display.str "N/A" ∧
    dispEmail none = Display.str "N/A" ∧
    dispFocusArea none = Display.str "N/A" ∧
    dispMobility none = Display.str "N/A" ∧
    dispBmi none = Display.str "N/A" ∧
    dispWeight none = Display.str "N/A" ∧
    dispHeight none = Display.str "N/A" := by
  decide

/--
C8: for every non-empty submission, the deferred bot message is
scheduled carrying the very timestamp captured at submission time — the
same `sentAt` as the user message appended by that submission — and
firing the deferred action later does not alter it.
-/
theorem bot_reply_same_timestamp (st : ChatState) (now : String)
    (hne : jsTrim st.userInput ≠ "") :
    ((handleSend now st).messages.getLast? =
      some ⟨Role.user, st.userInput, now⟩) ∧
    ((handleSend now st).pending.getLast? =
      some ⟨Role.bot, botReply st.userInput, now⟩) ∧
    ∀ (st2 : ChatState) (m : ChatMessage) (rest : List ChatMessage),
      st2.pending = m :: rest →
      (fireNext st2).messages.getLast? = some m := by
  refine ⟨?_, ?_, ?_⟩
  · unfold handleSend
    rw [if_neg hne]
    simp
  · unfold handleSend
    rw [if_neg hne]
    simp
  · intro st2 m rest hp
    unfold fireNext
    rw [hp]
    simp

/-- Witness for C8 at the concrete submission `"back pain"`. -/
theorem bot_reply_same_timestamp_witness :
    jsTrim "back pain" ≠ "" ∧
    ((handleSend "09:30" ⟨[], "back pain", []⟩).pending.getLast? =
      some ⟨Role.bot, botReply "back pain", "09:30"⟩) := by
  refine ⟨by decide, ?_⟩
  exact (bot_reply_same_timestamp ⟨[], "back pain", []⟩ "09:30"
    (by decide)).2.1

/--
C9: for every non-empty submission, `handleSend` clears the input
buffer to `""`, while the scheduled bot reply still interpolates the
original submitted text, not the cleared buffer.
-/
theorem handleSend_clears_input (st : ChatState) (now : String)
    (hne : jsTrim st.userInput ≠ "") :
    (handleSend now st).userInput = "" ∧
    (handleSend now st).pending.getLast?.map ChatMessage.content =
      some (botReply st.userInput) := by
  unfold handleSend
  rw [if_neg hne]
  simp

/-- Witness for C9 at the concrete submission `"squats"`. -/
theorem handleSend_clears_input_witness :
    jsTrim "squats" ≠ "" ∧
    (handleSend "11:45" ⟨[], "squats", []⟩).userInput = "" ∧
    (handleSend "11:45" ⟨[], "squats", []⟩).pending.getLast?.map
      ChatMessage.content = some (botReply "squats") := by
  refine ⟨by decide, ?_⟩
  exact handleSend_clears_input ⟨[], "squats", []⟩ "11:45" (by decide)

/--
C10: a profile whose `age` field is present but equal to `0` renders
the weight placeholder `"N/A"` rather than `0`: the presence check in
the source is a JavaScript truthiness test, under which the number `0`
is treated like an absent field.
-/
theorem weight_age_zero_placeholder (u : User) (h : u.age = some 0) :
    dispWeight (some u) = Display.str "N/A" := by
  unfold dispWeight
  simp [h]

/-- Witness for C10 at the fully populated sample profile with
`age = 0`. -/
theorem weight_age_zero_placeholder_witness :
    sampleUserAge0.age = some 0 ∧
    dispWeight (some sampleUserAge0) = Display.str "N/A" :=
  ⟨rfl, weight_age_zero_placeholder sampleUserAge0 rfl⟩

end PhysioVision
